import Mathlib

/-!
Shallow embedding of the two Python utilities in this repository:
`adjust-color.py` (brightness adjuster) and `interpolate-rgb-scale.py`
(gradient scale interpolator).  Python integers are modelled by `ℤ`,
Python floating-point factors by exact rationals `ℚ`, and Python's
`int(x)` conversion of a numeric value by truncation toward zero
(`pyInt`).  Fallible operations (dictionary lookup, `max`/`min` over a
possibly empty generator, `int(str)` parsing, `parse_color`) return
`Option`, with `none` standing for the raised Python exception.
-/

/-- Python `int(x)` applied to an exact rational value: truncation toward
zero.  Since a `ℚ` denominator is positive, this is `Int.tdiv` of the
numerator by the denominator. -/
def pyInt (q : ℚ) : ℤ := Int.tdiv q.num (q.den : ℤ)

/-! Embedding of `adjust-color.py`. -/

/-- Embeds `adjust_channel` from `adjust-color.py`:
`return max(0, min(255, int(value * (1 + intensity_factor))))`. -/
def adjust_channel (value : ℤ) (intensity_factor : ℚ) : ℤ :=
  max 0 (min 255 (pyInt ((value : ℚ) * (1 + intensity_factor))))

/-- Characters stripped by Python's `int(str)` conversion (ASCII
whitespace). -/
def pyWhitespaceChar (c : Char) : Bool :=
  c == ' ' || c == '\t' || c == '\n' || c == '\r' || c == '\x0b' || c == '\x0c'

/-- Strip leading and trailing whitespace from a character list. -/
def stripChars (l : List Char) : List Char :=
  ((l.dropWhile pyWhitespaceChar).reverse.dropWhile pyWhitespaceChar).reverse

/-- Value of an ASCII decimal digit. -/
def decDigitVal (c : Char) : Option ℕ :=
  if '0' ≤ c ∧ c ≤ '9' then some (c.toNat - 48) else none

/-- Value of an ASCII hexadecimal digit. -/
def hexDigitVal (c : Char) : Option ℕ :=
  if '0' ≤ c ∧ c ≤ '9' then some (c.toNat - 48)
  else if 'a' ≤ c ∧ c ≤ 'f' then some (c.toNat - 87)
  else if 'A' ≤ c ∧ c ≤ 'F' then some (c.toNat - 55)
  else none

/-- Value of an ASCII octal digit. -/
def octDigitVal (c : Char) : Option ℕ :=
  if '0' ≤ c ∧ c ≤ '7' then some (c.toNat - 48) else none

/-- Value of a binary digit. -/
def binDigitVal (c : Char) : Option ℕ :=
  if c == '0' then some 0 else if c == '1' then some 1 else none

/-- Digits that may appear after the leading `0` of a base-0 decimal
zero literal (`"00"`, `"0_0"`, ... are valid spellings of zero). -/
def zeroDigitVal (c : Char) : Option ℕ :=
  if c == '0' then some 0 else none

/-- Continue a digit group in the given base.  A single underscore is
permitted between digits (Python numeric-literal grammar); a trailing
or doubled underscore is rejected. -/
def digitRun (dval : Char → Option ℕ) (base : ℕ) : List Char → ℕ → Option ℕ
  | [], acc => some acc
  | '_' :: c :: rest, acc =>
    match dval c with
    | some d => digitRun dval base rest (acc * base + d)
    | none => none
  | ['_'], _ => none
  | c :: rest, acc =>
    match dval c with
    | some d => digitRun dval base rest (acc * base + d)
    | none => none

/-- A nonempty run of decimal digits starting with a digit (no leading
underscore), as accepted by `int(str)` in base 10. -/
def unsignedDec : List Char → Option ℕ
  | [] => none
  | c :: rest =>
    match decDigitVal c with
    | some d => digitRun decDigitVal 10 rest d
    | none => none

/-- Digits following a `0x`/`0o`/`0b` base prefix: at least one digit,
and an underscore may directly follow the prefix. -/
def prefixedDigits (dval : Char → Option ℕ) (base : ℕ) : List Char → Option ℕ
  | [] => none
  | l => digitRun dval base l 0

/-- Consume an optional single leading sign; returns whether the value
is negated together with the remaining characters. -/
def parseSign : List Char → Bool × List Char
  | '+' :: rest => (false, rest)
  | '-' :: rest => (true, rest)
  | l => (false, l)

/-- Embeds Python `int(token)` (base 10) as used for the comma-separated
channel tokens: optional surrounding whitespace, optional sign, then a
nonempty decimal digit group. -/
def pyIntOfChars (l : List Char) : Option ℤ :=
  let sr := parseSign (stripChars l)
  match unsignedDec sr.2 with
  | some n => some (if sr.1 then -(n : ℤ) else (n : ℤ))
  | none => none

/-- The magnitude part of Python `int(s, 0)`: a `0x`/`0X` hexadecimal,
`0o`/`0O` octal or `0b`/`0B` binary literal, a decimal literal without
leading zeros, or a spelling of zero. -/
def pyIntBase0Mag : List Char → Option ℕ
  | [] => none
  | ['0'] => some 0
  | '0' :: c :: rest =>
    if c == 'x' || c == 'X' then prefixedDigits hexDigitVal 16 rest
    else if c == 'o' || c == 'O' then prefixedDigits octDigitVal 8 rest
    else if c == 'b' || c == 'B' then prefixedDigits binDigitVal 2 rest
    else digitRun zeroDigitVal 10 ( c :: rest) 0
  | c :: rest =>
    match decDigitVal c with
    | some d => digitRun decDigitVal 10 rest d
    | none => none

/-- Embeds Python `int(color_str, 0)` from `parse_color`: optional
surrounding whitespace and sign, then an integer literal whose base is
auto-detected from its prefix. -/
def pyIntStr0 (s : String) : Option ℤ :=
  let sr := parseSign (stripChars s.data)
  match pyIntBase0Mag sr.2 with
  | some n => some (if sr.1 then -(n : ℤ) else (n : ℤ))
  | none => none

/-- Embeds Python `color_str.split(",")`: split at every comma, keeping
empty pieces. -/
def splitOnComma : List Char → List (List Char)
  | [] => [[]]
  | ',' :: rest => [] :: splitOnComma rest
  | c :: rest =>
    match splitOnComma rest with
    | t :: ts => ( c :: t) :: ts
    | [] => [[ c]]

/-- Result shape of `parse_color`: a single channel value or an RGB
triple. -/
inductive ParsedColor where
  | single (value : ℤ) : ParsedColor
  | rgb (r g b : ℤ) : ParsedColor
deriving DecidableEq

/-- Embeds `parse_color` from `adjust-color.py`.  `none` stands for the
raised `ValueError` (the spec's `InvalidFormat`): in the comma branch
when a token is not an integer, when there are not exactly three
tokens, or when a channel is outside `[0,255]`; in the single-value
branch when `int(color_str, 0)` fails or the value is outside
`[0,255]`. -/
def parse_color (color_str : String) : Option ParsedColor :=
  if color_str.data.contains ',' then
    match (splitOnComma color_str.data).mapM pyIntOfChars with
    | some [r, g, b] =>
      if 0 ≤ r ∧ r ≤ 255 ∧ 0 ≤ g ∧ g ≤ 255 ∧ 0 ≤ b ∧ b ≤ 255 then
        some (ParsedColor.rgb r g b)
      else none
    | _ => none
  else
    match pyIntStr0 color_str with
    | some c => if 0 ≤ c ∧ c ≤ 255 then some (ParsedColor.single c) else none
    | none => none

/-! Embedding of `interpolate-rgb-scale.py`. -/

/-- An RGB triple. -/
abbrev Color := ℤ × ℤ × ℤ

/-- One channel of `interpolate_color`:
`int(start + (end - start) * (pos - start_pos) / (end_pos - start_pos))`,
with Python's true division carried out exactly in `ℚ`. -/
def interp_channel (start end_ start_pos end_pos pos : ℤ) : ℤ :=
  pyInt ((start : ℚ) +
    ((end_ : ℚ) - (start : ℚ)) * ((pos : ℚ) - (start_pos : ℚ)) /
      ((end_pos : ℚ) - (start_pos : ℚ)))

/-- Embeds `interpolate_color` from `interpolate-rgb-scale.py`, applied
channel-wise over the zipped triples. -/
def interpolate_color (start_color end_color : Color)
    (start_pos end_pos pos : ℤ) : Color :=
  (interp_channel start_color.1 end_color.1 start_pos end_pos pos,
   interp_channel start_color.2.1 end_color.2.1 start_pos end_pos pos,
   interp_channel start_color.2.2 end_color.2.2 start_pos end_pos pos)

/-- Embeds `darken_color` from `interpolate-rgb-scale.py`:
`tuple(int(channel * (1 - reduction_factor)) for channel in color)`. -/
def darken_color (color : Color) (reduction_factor : ℚ) : Color :=
  (pyInt ((color.1 : ℚ) * (1 - reduction_factor)),
   pyInt ((color.2.1 : ℚ) * (1 - reduction_factor)),
   pyInt ((color.2.2 : ℚ) * (1 - reduction_factor)))

/-- The default value `0.33` of `darken_color`'s `reduction_factor`
argument, used at the builder's call site `darken_color(bg_color)`. -/
def default_reduction_factor : ℚ := 33 / 100

/-- The four literal entries of the `colors` dictionary. -/
def base_colors : ℤ → Option Color := fun k =>
  if k = 1 then some (176, 238, 176)
  else if k = 3 then some (255, 255, 120)
  else if k = 7 then some (248, 152, 150)
  else if k = 9 then some (124, 76, 75)
  else none

/-- `yellow = colors[3]`. -/
def yellow : Color := (255, 255, 120)

/-- `red = colors[7]`. -/
def red : Color := (248, 152, 150)

/-- `colors[5] = tuple((yellow[i] + red[i]) // 2 for i in range(3))`,
with Python's floor division `//` embedded as `Int.fdiv`. -/
def colors5 : Color :=
  ((yellow.1 + red.1).fdiv 2, (yellow.2.1 + red.2.1).fdiv 2,
   (yellow.2.2 + red.2.2).fdiv 2)

/-- The `colors` dictionary after the derived key 5 has been inserted. -/
def colors : ℤ → Option Color := fun k =>
  if k = 5 then some colors5 else base_colors k

/-- The keys of the `colors` dictionary (iteration order after the
insertion of key 5; only the set matters for `max`/`min` below). -/
def color_keys : List ℤ := [1, 3, 7, 9, 5]

/-- `scale_points = range(1, 10)`. -/
def scale_points : List ℤ := [1, 2, 3, 4, 5, 6, 7, 8, 9]

/-- `max(k for k in colors if k < i)`; `none` stands for the
`ValueError` raised by `max` on an empty generator. -/
def lower_bound (i : ℤ) : Option ℤ := (color_keys.filter (fun k => k < i)).max?

/-- `min(k for k in colors if k > i)`; `none` stands for the
`ValueError` raised by `min` on an empty generator. -/
def upper_bound (i : ℤ) : Option ℤ := (color_keys.filter (fun k => i < k)).min?

/-- The interpolation branch of the builder loop: look up the nearest
bounding keys and interpolate between their colors. -/
def interp_at (i : ℤ) : Option Color :=
  match lower_bound i, upper_bound i with
  | some lb, some ub =>
    match colors lb, colors ub with
    | some cl, some cu => some (interpolate_color cl cu lb ub i)
    | _, _ => none
  | _, _ => none

/-- `bg_color` of one iteration of the builder loop: a key position uses
its color directly (`if i in colors`), any other position is
interpolated. -/
def bg_color (i : ℤ) : Option Color :=
  match colors i with
  | some c => some c
  | none => interp_at i

/-- One record appended to `result`:
`(i, bg_color, darken_color(bg_color))`. -/
def record (i : ℤ) : Option (ℤ × Color × Color) :=
  match bg_color i with
  | some bg => some (i, bg, darken_color bg default_reduction_factor)
  | none => none

/-- The builder loop over a list of scale points; `none` if any
iteration would raise. -/
def build : List ℤ → Option (List (ℤ × Color × Color))
  | [] => some []
  | i :: rest =>
    match record i, build rest with
    | some r, some rs => some ( r :: rs)
    | _, _ => none

/-- `result` after the builder loop over `scale_points`. -/
def result : Option (List (ℤ × Color × Color)) := build scale_points

/-- `' '.join(map(str, color))`. -/
def color_str (c : Color) : String :=
  toString c.1 ++ " " ++ toString c.2.1 ++ " " ++ toString c.2.2

/-- The printed line for one record, from the f-string
`.airport.i{point} \x7b\x7b background-color: rgb({bg_color_str}); border-color: rgb({border_color_str}); \x7d\x7d`. -/
def output_line (point : ℤ) (bg bc : Color) : String :=
  ".airport.i" ++ toString point ++ " \x7b background-color: rgb(" ++
    color_str bg ++ "); border-color: rgb(" ++ color_str bc ++ "); \x7d"

/-- The full sequence of printed lines. -/
def output_lines : Option (List String) :=
  match result with
  | some rs => some (rs.map (fun r => output_line r.1 r.2.1 r.2.2))
  | none => none

/-! Definitions following the spec's words, for comparison with the
embedded code. -/

/-- Clamp as written in the spec of the channel adjuster:
`clamp(x, lo, hi)`. -/
def clamp_spec (x lo hi : ℤ) : ℤ := min hi (max lo x)

/-- Decimal notation in the spec's sense: optional surrounding
whitespace, an optional sign, then one or more decimal digits. -/
def spec_decimal (s : String) : Bool :=
  let sr := parseSign (stripChars s.data)
  !sr.2.isEmpty && sr.2.all (fun c => (decDigitVal c).isSome)

/-- Hexadecimal notation in the spec's sense: optional surrounding
whitespace, an optional sign, then `0x`/`0X` followed by one or more
hexadecimal digits. -/
def spec_hex (s : String) : Bool :=
  let sr := parseSign (stripChars s.data)
  match sr.2 with
  | '0' :: c :: rest =>
    (c == 'x' || c == 'X') && !rest.isEmpty &&
      rest.all (fun c2 => (hexDigitVal c2).isSome)
  | _ => false

/-- Channel-range predicate for an RGB triple. -/
def color_in_range (c : Color) : Prop :=
  0 ≤ c.1 ∧ c.1 ≤ 255 ∧ 0 ≤ c.2.1 ∧ c.2.1 ≤ 255 ∧ 0 ≤ c.2.2 ∧ c.2.2 ≤ 255

instance (c : Color) : Decidable (color_in_range c) := by
  unfold color_in_range; infer_instance

/-- The concrete value of `result` for the compiled-in key map. -/
def scale_list : List (ℤ × Color × Color) :=
  [(1, (176, 238, 176), (117, 159, 117)),
   (2, (215, 246, 148), (144, 164, 99)),
   (3, (255, 255, 120), (170, 170, 80)),
   (4, (253, 229, 127), (169, 153, 85)),
   (5, (251, 203, 135), (168, 136, 90)),
   (6, (249, 177, 142), (166, 118, 95)),
   (7, (248, 152, 150), (166, 101, 100)),
   (8, (186, 114, 112), (124, 76, 75)),
   (9, (124, 76, 75), (83, 50, 50))]

/-! Evaluation lemmas for the interpolated positions and the darkened
border colors (these involve exact rational arithmetic, which the
kernel cannot evaluate directly, so they are settled by `norm_num`). -/

theorem interp_at_2 : interp_at 2 = some (215, 246, 148) := by
  have h1 : lower_bound 2 = some 1 := by decide
  have h2 : upper_bound 2 = some 3 := by decide
  have h3 : colors 1 = some (176, 238, 176) := by decide
  have h4 : colors 3 = some (255, 255, 120) := by decide
  simp only [interp_at, h1, h2, h3, h4, interpolate_color, interp_channel,
    Option.some.injEq, Prod.mk.injEq]
  norm_num [pyInt]
  all_goals decide

theorem interp_at_4 : interp_at 4 = some (253, 229, 127) := by
  have h1 : lower_bound 4 = some 3 := by decide
  have h2 : upper_bound 4 = some 5 := by decide
  have h3 : colors 3 = some (255, 255, 120) := by decide
  have h4 : colors 5 = some (251, 203, 135) := by decide
  simp only [interp_at, h1, h2, h3, h4, interpolate_color, interp_channel,
    Option.some.injEq, Prod.mk.injEq]
  norm_num [pyInt]
  all_goals decide

theorem interp_at_6 : interp_at 6 = some (249, 177, 142) := by
  have h1 : lower_bound 6 = some 5 := by decide
  have h2 : upper_bound 6 = some 7 := by decide
  have h3 : colors 5 = some (251, 203, 135) := by decide
  have h4 : colors 7 = some (248, 152, 150) := by decide
  simp only [interp_at, h1, h2, h3, h4, interpolate_color, interp_channel,
    Option.some.injEq, Prod.mk.injEq]
  norm_num [pyInt]
  all_goals decide

theorem interp_at_8 : interp_at 8 = some (186, 114, 112) := by
  have h1 : lower_bound 8 = some 7 := by decide
  have h2 : upper_bound 8 = some 9 := by decide
  have h3 : colors 7 = some (248, 152, 150) := by decide
  have h4 : colors 9 = some (124, 76, 75) := by decide
  simp only [interp_at, h1, h2, h3, h4, interpolate_color, interp_channel,
    Option.some.injEq, Prod.mk.injEq]
  norm_num [pyInt]
  all_goals decide

theorem darken_1 : darken_color (176, 238, 176) default_reduction_factor = (117, 159, 117) := by
  simp only [darken_color, default_reduction_factor, Prod.mk.injEq]
  norm_num [pyInt]
  all_goals decide

theorem darken_2 : darken_color (215, 246, 148) default_reduction_factor = (144, 164, 99) := by
  simp only [darken_color, default_reduction_factor, Prod.mk.injEq]
  norm_num [pyInt]
  all_goals decide

theorem darken_3 : darken_color (255, 255, 120) default_reduction_factor = (170, 170, 80) := by
  simp only [darken_color, default_reduction_factor, Prod.mk.injEq]
  norm_num [pyInt]
  all_goals decide

theorem darken_4 : darken_color (253, 229, 127) default_reduction_factor = (169, 153, 85) := by
  simp only [darken_color, default_reduction_factor, Prod.mk.injEq]
  norm_num [pyInt]
  all_goals decide

theorem darken_5 : darken_color (251, 203, 135) default_reduction_factor = (168, 136, 90) := by
  simp only [darken_color, default_reduction_factor, Prod.mk.injEq]
  norm_num [pyInt]
  all_goals decide

theorem darken_6 : darken_color (249, 177, 142) default_reduction_factor = (166, 118, 95) := by
  simp only [darken_color, default_reduction_factor, Prod.mk.injEq]
  norm_num [pyInt]
  all_goals decide

theorem darken_7 : darken_color (248, 152, 150) default_reduction_factor = (166, 101, 100) := by
  simp only [darken_color, default_reduction_factor, Prod.mk.injEq]
  norm_num [pyInt]
  all_goals decide

theorem darken_8 : darken_color (186, 114, 112) default_reduction_factor = (124, 76, 75) := by
  simp only [darken_color, default_reduction_factor, Prod.mk.injEq]
  norm_num [pyInt]
  all_goals decide

theorem darken_9 : darken_color (124, 76, 75) default_reduction_factor = (83, 50, 50) := by
  simp only [darken_color, default_reduction_factor, Prod.mk.injEq]
  norm_num [pyInt]
  all_goals decide

theorem record_1 : record 1 = some (1, (176, 238, 176), (117, 159, 117)) := by
  have h : bg_color 1 = some (176, 238, 176) := by decide
  simp only [record, h, darken_1]

theorem record_2 : record 2 = some (2, (215, 246, 148), (144, 164, 99)) := by
  have h : colors 2 = none := by decide
  simp only [record, bg_color, h, interp_at_2, darken_2]

theorem record_3 : record 3 = some (3, (255, 255, 120), (170, 170, 80)) := by
  have h : bg_color 3 = some (255, 255, 120) := by decide
  simp only [record, h, darken_3]

theorem record_4 : record 4 = some (4, (253, 229, 127), (169, 153, 85)) := by
  have h : colors 4 = none := by decide
  simp only [record, bg_color, h, interp_at_4, darken_4]

theorem record_5 : record 5 = some (5, (251, 203, 135), (168, 136, 90)) := by
  have h : bg_color 5 = some (251, 203, 135) := by decide
  simp only [record, h, darken_5]

theorem record_6 : record 6 = some (6, (249, 177, 142), (166, 118, 95)) := by
  have h : colors 6 = none := by decide
  simp only [record, bg_color, h, interp_at_6, darken_6]

theorem record_7 : record 7 = some (7, (248, 152, 150), (166, 101, 100)) := by
  have h : bg_color 7 = some (248, 152, 150) := by decide
  simp only [record, h, darken_7]

theorem record_8 : record 8 = some (8, (186, 114, 112), (124, 76, 75)) := by
  have h : colors 8 = none := by decide
  simp only [record, bg_color, h, interp_at_8, darken_8]

theorem record_9 : record 9 = some (9, (124, 76, 75), (83, 50, 50)) := by
  have h : bg_color 9 = some (124, 76, 75) := by decide
  simp only [record, h, darken_9]

theorem result_eq : result = some scale_list := by
  simp only [result, scale_points, build, record_1, record_2, record_3, record_4,
    record_5, record_6, record_7, record_8, record_9, scale_list]

/-! The claims. -/

/-- C1: for every channel value `v` in `[0,255]` and every finite
intensity factor `f`, `adjust_channel(v, f)` equals
`clamp(round_toward_zero(v * (1 + f)), 0, 255)`: the fractional part is
truncated toward zero (`pyInt`), and the clamp into `[0,255]` is
applied after scaling. -/
theorem adjust_channel_matches_spec (v : ℤ) (f : ℚ) (h0 : 0 ≤ v) (h255 : v ≤ 255) :
    adjust_channel v f = clamp_spec (pyInt ((v : ℚ) * (1 + f))) 0 255 := by
  unfold adjust_channel clamp_spec
  rw [max_min_distrib_left]
  norm_num

/-- Witness for C1 at `v = 200`, `f = -0.33`. -/
theorem adjust_channel_matches_spec_witness :
    ((0 : ℤ) ≤ 200 ∧ (200 : ℤ) ≤ 255) ∧
    adjust_channel 200 (-33/100) = clamp_spec (pyInt ((200 : ℤ) * (1 + (-33/100 : ℚ)))) 0 255 :=
  ⟨by decide, adjust_channel_matches_spec 200 (-33/100) (by decide) (by decide)⟩

/-- C2: `adjust_channel(200, -0.33) = 134` (exact arithmetic gives
`200 * 0.67 = 134.0`, truncated to `134`; the binary floating-point
computation of the reference rounds to exactly `134.0` as well). -/
theorem adjust_channel_example_200 : adjust_channel 200 (-33/100) = 134 := by
  unfold adjust_channel
  norm_num [pyInt]

/-- C3 counterexample: `"0b11"` is neither decimal nor `0x`-prefixed
hexadecimal notation, yet `parse_color` accepts it (Python's
`int(s, 0)` also auto-detects `0b` binary and `0o` octal prefixes), so
the claim that any such single-value input raises `InvalidFormat` is
false. -/
theorem parse_color_base_prefix_counterexample :
    spec_decimal "0b11" = false ∧ spec_hex "0b11" = false ∧
    parse_color "0b11" = some (ParsedColor.single 3) := by decide

/-- C3 amended: `parse_color` fails exactly when the input matches
neither the three-channel comma form (exactly three integer tokens,
each in `[0,255]`) nor the single-value integer form accepted by
Python's `int(s, 0)` — which, besides decimal and `0x`-hexadecimal,
also accepts `0o`-octal and `0b`-binary notation — with value in
`[0,255]`.  Both branches are characterised in both directions: the
error-iff for each branch, soundness and completeness of each success
shape, and the spec's examples together with the additional accepted
prefixes. -/
theorem parse_color_amended :
    (∀ s : String, s.data.contains ',' = true →
      (parse_color s = none ↔
        ¬ ∃ r g b : ℤ, (splitOnComma s.data).mapM pyIntOfChars = some [r, g, b] ∧
          0 ≤ r ∧ r ≤ 255 ∧ 0 ≤ g ∧ g ≤ 255 ∧ 0 ≤ b ∧ b ≤ 255)) ∧
    (∀ s : String, s.data.contains ',' = false →
      (parse_color s = none ↔ ¬ ∃ n : ℤ, pyIntStr0 s = some n ∧ 0 ≤ n ∧ n ≤ 255)) ∧
    (∀ (s : String) (r g b : ℤ), parse_color s = some (ParsedColor.rgb r g b) →
      s.data.contains ',' = true ∧
      (splitOnComma s.data).mapM pyIntOfChars = some [r, g, b] ∧
      0 ≤ r ∧ r ≤ 255 ∧ 0 ≤ g ∧ g ≤ 255 ∧ 0 ≤ b ∧ b ≤ 255) ∧
    (∀ (s : String) (n : ℤ), parse_color s = some (ParsedColor.single n) →
      s.data.contains ',' = false ∧ pyIntStr0 s = some n ∧ 0 ≤ n ∧ n ≤ 255) ∧
    (∀ (s : String) (r g b : ℤ), s.data.contains ',' = true →
      (splitOnComma s.data).mapM pyIntOfChars = some [r, g, b] →
      0 ≤ r ∧ r ≤ 255 ∧ 0 ≤ g ∧ g ≤ 255 ∧ 0 ≤ b ∧ b ≤ 255 →
      parse_color s = some (ParsedColor.rgb r g b)) ∧
    (∀ (s : String) (n : ℤ), s.data.contains ',' = false →
      pyIntStr0 s = some n → 0 ≤ n ∧ n ≤ 255 →
      parse_color s = some (ParsedColor.single n)) ∧
    parse_color "255,255,120" = some (ParsedColor.rgb 255 255 120) ∧
    parse_color "100" = some (ParsedColor.single 100) ∧
    parse_color "0x64" = some (ParsedColor.single 100) ∧
    parse_color "0b11" = some (ParsedColor.single 3) ∧
    parse_color "0o144" = some (ParsedColor.single 100) ∧
    parse_color "256" = none ∧
    parse_color "1,2,3,4" = none ∧
    parse_color "-1" = none := by
  have hrgb_complete : ∀ (s : String) (r g b : ℤ), s.data.contains ',' = true →
      (splitOnComma s.data).mapM pyIntOfChars = some [r, g, b] →
      0 ≤ r ∧ r ≤ 255 ∧ 0 ≤ g ∧ g ≤ 255 ∧ 0 ≤ b ∧ b ≤ 255 →
      parse_color s = some (ParsedColor.rgb r g b) := by
    intro s r g b hc htok hrange
    simp only [parse_color, hc, if_true, htok]
    rw [if_pos hrange]
  have hsingle_complete : ∀ (s : String) (n : ℤ), s.data.contains ',' = false →
      pyIntStr0 s = some n → 0 ≤ n ∧ n ≤ 255 →
      parse_color s = some (ParsedColor.single n) := by
    intro s n hc hp hrange
    simp only [parse_color, hc, Bool.false_eq_true, if_false, hp]
    rw [if_pos hrange]
  have hrgb_sound : ∀ (s : String) (r g b : ℤ),
      parse_color s = some (ParsedColor.rgb r g b) →
      s.data.contains ',' = true ∧
      (splitOnComma s.data).mapM pyIntOfChars = some [r, g, b] ∧
      0 ≤ r ∧ r ≤ 255 ∧ 0 ≤ g ∧ g ≤ 255 ∧ 0 ≤ b ∧ b ≤ 255 := by
    intro s r g b h
    by_cases hc : s.data.contains ',' = true
    · simp only [parse_color, hc, if_true] at h
      split at h
      next x r2 g2 b2 heq =>
        split at h
        next hr =>
          simp only [Option.some.injEq, ParsedColor.rgb.injEq] at h
          obtain ⟨he1, he2, he3⟩ := h
          subst he1; subst he2; subst he3
          exact ⟨hc, heq, hr⟩
        next => simp at h
      next => simp at h
    · rw [Bool.not_eq_true] at hc
      simp only [parse_color, hc, Bool.false_eq_true, if_false] at h
      split at h
      next x c heq =>
        split at h
        · simp at h
        · simp at h
      next => simp at h
  have hsingle_sound : ∀ (s : String) (n : ℤ),
      parse_color s = some (ParsedColor.single n) →
      s.data.contains ',' = false ∧ pyIntStr0 s = some n ∧ 0 ≤ n ∧ n ≤ 255 := by
    intro s n h
    by_cases hc : s.data.contains ',' = true
    · simp only [parse_color, hc, if_true] at h
      split at h
      next x r2 g2 b2 heq =>
        split at h
        · simp at h
        · simp at h
      next => simp at h
    · rw [Bool.not_eq_true] at hc
      simp only [parse_color, hc, Bool.false_eq_true, if_false] at h
      split at h
      next x c heq =>
        split at h
        next hr =>
          simp only [Option.some.injEq, ParsedColor.single.injEq] at h
          subst h
          exact ⟨hc, heq, hr⟩
        next => simp at h
      next => simp at h
  refine ⟨?_, ?_, hrgb_sound, hsingle_sound, hrgb_complete, hsingle_complete,
    by decide, by decide, by decide, by decide, by decide, by decide, by decide, by decide⟩
  · intro s hc
    constructor
    · rintro hnone ⟨r, g, b, htok, hrange⟩
      have hsome := hrgb_complete s r g b hc htok hrange
      rw [hnone] at hsome
      exact Option.noConfusion hsome
    · intro hnex
      cases hp : parse_color s with
      | none => rfl
      | some pc =>
        cases pc with
        | single n =>
          have := (hsingle_sound s n hp).1
          rw [hc] at this
          exact Bool.noConfusion this
        | rgb r g b =>
          obtain ⟨hc2, htok, hrange⟩ := hrgb_sound s r g b hp
          exact absurd ⟨r, g, b, htok, hrange⟩ hnex
  · intro s hc
    constructor
    · rintro hnone ⟨n, hp, hrange⟩
      have hsome := hsingle_complete s n hc hp hrange
      rw [hnone] at hsome
      exact Option.noConfusion hsome
    · intro hnex
      cases hp : parse_color s with
      | none => rfl
      | some pc =>
        cases pc with
        | single n =>
          obtain ⟨hc2, hpp, hrange⟩ := hsingle_sound s n hp
          exact absurd ⟨n, hpp, hrange⟩ hnex
        | rgb r g b =>
          have := (hrgb_sound s r g b hp).1
          rw [hc] at this
          exact Bool.noConfusion this

/-- Witness for the amended C3, exercising the completeness direction
of both branches at `"255,255,120"` and `"100"`. -/
theorem parse_color_amended_witness :
    ("255,255,120".data.contains ',' = true) ∧
    (splitOnComma "255,255,120".data).mapM pyIntOfChars = some [255, 255, 120] ∧
    ((0 : ℤ) ≤ 255 ∧ (255 : ℤ) ≤ 255 ∧ (0 : ℤ) ≤ 255 ∧ (255 : ℤ) ≤ 255 ∧
      (0 : ℤ) ≤ 120 ∧ (120 : ℤ) ≤ 255) ∧
    parse_color "255,255,120" = some (ParsedColor.rgb 255 255 120) ∧
    ("100".data.contains ',' = false) ∧ pyIntStr0 "100" = some 100 ∧
    ((0 : ℤ) ≤ 100 ∧ (100 : ℤ) ≤ 255) ∧
    parse_color "100" = some (ParsedColor.single 100) :=
  ⟨by decide, by decide, by decide,
    parse_color_amended.2.2.2.2.1 "255,255,120" 255 255 120 (by decide) (by decide) (by decide),
    by decide, by decide, by decide,
    parse_color_amended.2.2.2.2.2.1 "100" 100 (by decide) (by decide) (by decide)⟩

/-- C4: for key colors at integer positions `start_pos < end_pos` and a
target position between them, `interpolate_color` computes each channel
independently as
`start + (end - start) * (pos - start_pos) / (end_pos - start_pos)`
truncated toward zero, with no clamping; in particular
`interpolate_color((0,0,0), (100,100,100), 0, 10, 5) = (50,50,50)`. -/
theorem interpolate_color_matches_spec (sc ec : Color) (sp ep pos : ℤ)
    (h1 : sp < ep) (h2 : sp ≤ pos) (h3 : pos ≤ ep) :
    interpolate_color sc ec sp ep pos =
      (pyInt ((sc.1 : ℚ) + ((ec.1 : ℚ) - (sc.1 : ℚ)) * ((pos : ℚ) - (sp : ℚ)) / ((ep : ℚ) - (sp : ℚ))),
       pyInt ((sc.2.1 : ℚ) + ((ec.2.1 : ℚ) - (sc.2.1 : ℚ)) * ((pos : ℚ) - (sp : ℚ)) / ((ep : ℚ) - (sp : ℚ))),
       pyInt ((sc.2.2 : ℚ) + ((ec.2.2 : ℚ) - (sc.2.2 : ℚ)) * ((pos : ℚ) - (sp : ℚ)) / ((ep : ℚ) - (sp : ℚ)))) ∧
    interpolate_color (0, 0, 0) (100, 100, 100) 0 10 5 = (50, 50, 50) := by
  refine ⟨rfl, ?_⟩
  simp only [interpolate_color, interp_channel, Prod.mk.injEq]
  norm_num [pyInt]

/-- Witness for C4 at `((0,0,0), (100,100,100), 0, 10, 5)`. -/
theorem interpolate_color_matches_spec_witness :
    ((0 : ℤ) < 10 ∧ (0 : ℤ) ≤ 5 ∧ (5 : ℤ) ≤ 10) ∧
    interpolate_color (0, 0, 0) (100, 100, 100) 0 10 5 = (50, 50, 50) :=
  ⟨by decide,
    (interpolate_color_matches_spec (0, 0, 0) (100, 100, 100) 0 10 5
      (by decide) (by decide) (by decide)).2⟩

/-- C5: the scale builder emits exactly one record per position 1..9 in
strictly ascending order with no gaps; key positions use their key
color directly, non-key positions use `interpolate_color` between the
nearest bounding keys, each border color is the darkened background
color at the default reduction factor, and each printed line has the
fixed `.airport.i<position>` format with space-joined channels. -/
theorem scale_builder_emits_full_scale :
    ∃ rs, result = some rs ∧
      rs.map (fun r => r.1) = [1, 2, 3, 4, 5, 6, 7, 8, 9] ∧
      (∀ r ∈ rs, (colors r.1).isSome = true → colors r.1 = some r.2.1) ∧
      (∀ r ∈ rs, colors r.1 = none → interp_at r.1 = some r.2.1) ∧
      (∀ r ∈ rs, r.2.2 = darken_color r.2.1 default_reduction_factor) ∧
      output_lines = some (rs.map (fun r => output_line r.1 r.2.1 r.2.2)) ∧
      output_lines = some
        [".airport.i1 \x7b background-color: rgb(176 238 176); border-color: rgb(117 159 117); \x7d",
         ".airport.i2 \x7b background-color: rgb(215 246 148); border-color: rgb(144 164 99); \x7d",
         ".airport.i3 \x7b background-color: rgb(255 255 120); border-color: rgb(170 170 80); \x7d",
         ".airport.i4 \x7b background-color: rgb(253 229 127); border-color: rgb(169 153 85); \x7d",
         ".airport.i5 \x7b background-color: rgb(251 203 135); border-color: rgb(168 136 90); \x7d",
         ".airport.i6 \x7b background-color: rgb(249 177 142); border-color: rgb(166 118 95); \x7d",
         ".airport.i7 \x7b background-color: rgb(248 152 150); border-color: rgb(166 101 100); \x7d",
         ".airport.i8 \x7b background-color: rgb(186 114 112); border-color: rgb(124 76 75); \x7d",
         ".airport.i9 \x7b background-color: rgb(124 76 75); border-color: rgb(83 50 50); \x7d"] := by
  refine ⟨scale_list, result_eq, by decide, by decide, ?_, ?_, ?_, ?_⟩
  · intro r hr h
    fin_cases hr <;>
      first
        | exact absurd h (by decide)
        | exact interp_at_2
        | exact interp_at_4
        | exact interp_at_6
        | exact interp_at_8
  · intro r hr
    fin_cases hr <;>
      first
        | exact darken_1.symm
        | exact darken_2.symm
        | exact darken_3.symm
        | exact darken_4.symm
        | exact darken_5.symm
        | exact darken_6.symm
        | exact darken_7.symm
        | exact darken_8.symm
        | exact darken_9.symm
  · simp only [output_lines, result_eq]
  · simp only [output_lines, result_eq]
    decide

/-- C6: the derived key sits at position 5, midway between the yellow
key (position 3) and the red key (position 7), and its color is the
per-channel floor-division-by-2 average of those two keys' colors,
which is `(251, 203, 135)` for the reference key map. -/
theorem derived_key_midpoint :
    colors 3 = some yellow ∧ colors 7 = some red ∧
    ((3 : ℤ) + 7).fdiv 2 = 5 ∧
    colors 5 = some ((yellow.1 + red.1).fdiv 2, (yellow.2.1 + red.2.1).fdiv 2,
      (yellow.2.2 + red.2.2).fdiv 2) ∧
    colors 5 = some (251, 203, 135) := by decide

/-- C7: `darken_color` computes per channel
`truncate(channel * (1 - r))`, the default reduction factor is `0.33`,
and no clamping is applied: for `r = 1.5 > 1` the channels of
`(255,255,255)` come out as the negative value `-127`, passed through
uncorrected. -/
theorem darken_color_matches_spec :
    (∀ (r g b : ℤ) (q : ℚ), darken_color (r, g, b) q =
      (pyInt ((r : ℚ) * (1 - q)), pyInt ((g : ℚ) * (1 - q)), pyInt ((b : ℚ) * (1 - q)))) ∧
    default_reduction_factor = 33 / 100 ∧
    darken_color (255, 255, 255) (3 / 2) = (-127, -127, -127) := by
  refine ⟨fun r g b q => rfl, rfl, ?_⟩
  simp only [darken_color, Prod.mk.injEq]
  norm_num [pyInt]
  all_goals decide

/-- C8: for every integer channel value `v` and every finite factor
`f`, `adjust_channel(v, f)` lies in `[0,255]` — the clamp invariant
holds with no precondition on `v` or `f`. -/
theorem adjust_channel_clamp_invariant (v : ℤ) (f : ℚ) :
    0 ≤ adjust_channel v f ∧ adjust_channel v f ≤ 255 := by
  unfold adjust_channel
  exact ⟨le_max_left 0 _, max_le (by norm_num) (min_le_left 255 _)⟩

/-- C9: every record emitted with the compiled-in key map has all three
background channels and all three border channels in `[0,255]`, even
though neither `interpolate_color` nor `darken_color` clamps. -/
theorem emitted_channels_in_range (rs : List (ℤ × Color × Color)) (h : result = some rs) :
    ∀ r ∈ rs, color_in_range r.2.1 ∧ color_in_range r.2.2 := by
  rw [result_eq] at h
  have he := Option.some.inj h
  subst he
  decide

/-- Witness for C9 at the first emitted record. -/
theorem emitted_channels_in_range_witness :
    result = some scale_list ∧
    ((1 : ℤ), ((176 : ℤ), (238 : ℤ), (176 : ℤ)), ((117 : ℤ), (159 : ℤ), (117 : ℤ))) ∈ scale_list ∧
    (color_in_range (176, 238, 176) ∧ color_in_range (117, 159, 117)) :=
  ⟨result_eq, by decide,
    emitted_channels_in_range scale_list result_eq (1, (176, 238, 176), (117, 159, 117)) (by decide)⟩

/-- C10: with the compiled-in key map, every non-key position of the
scale range has a key strictly below and a key strictly above it, those
bounds are distinct, and so the builder's nearest-bound searches
succeed and the interpolation divisor `end_pos - start_pos` is never
zero in the reference configuration. -/
theorem interpolation_bounds_exist (i : ℤ) (hi : i ∈ scale_points) (hk : colors i = none) :
    ∃ lb ∈ color_keys, ∃ ub ∈ color_keys,
      lower_bound i = some lb ∧ upper_bound i = some ub ∧
      lb < i ∧ i < ub ∧ ub - lb ≠ 0 ∧
      (colors lb).isSome = true ∧ (colors ub).isSome = true := by
  fin_cases hi <;> revert hk <;> decide

/-- Witness for C10 at the non-key position 2. -/
theorem interpolation_bounds_exist_witness :
    ((2 : ℤ) ∈ scale_points) ∧ colors 2 = none ∧
    (∃ lb ∈ color_keys, ∃ ub ∈ color_keys,
      lower_bound 2 = some lb ∧ upper_bound 2 = some ub ∧
      lb < 2 ∧ (2 : ℤ) < ub ∧ ub - lb ≠ 0 ∧
      (colors lb).isSome = true ∧ (colors ub).isSome = true) :=
  ⟨by decide, by decide, interpolation_bounds_exist 2 (by decide) (by decide)⟩
